import Mathlib

/-!
Verification development for the Lummao LSL-to-Python code generator
(`src/lummao.cc`).  The generator is a single `PythonVisitor` pass over the
Tailslide AST that appends text to one output buffer.  Each visitor method is
embedded below as a pure Lean function producing the emitted `String`; the
indentation counter `mTabs` becomes an explicit `tabs : Nat` argument, and the
`ScopedTabSetter` save/restore becomes passing `tabs + 1` to nested calls.

32-bit floats are embedded by their IEEE-754 bit pattern as a `Nat` (all field
extractors reduce the pattern mod 2^32).  The cosmetic `std::to_string` hint
that `writeFloat` places in the first `bin2float` argument is threaded through
as an uninterpreted parameter `ts : Nat -> String` (the generated code never
parses it), so every theorem below quantifies over it.  The `assert(0)` calls
in the generator are modelled by `Except`-valued dispatch functions whose
`.error ()` result stands for the debug-build abort; the `_ndebug` variants
give the value the release build would continue with.
-/

/-! ### 32-bit float encoding (`PythonVisitor::writeFloat`, lummao.cc lines 99-124) -/

/-- Sign bit of a 32-bit float pattern. -/
def signBit (f : Nat) : Nat := f / 2 ^ 31 % 2

/-- Biased exponent field (8 bits) of a 32-bit float pattern. -/
def expField (f : Nat) : Nat := f / 2 ^ 23 % 2 ^ 8

/-- Mantissa field (23 bits) of a 32-bit float pattern. -/
def fracField (f : Nat) : Nat := f % 2 ^ 23

/-- True when the pattern is not an infinity or NaN. -/
def isFinite (f : Nat) : Bool := expField f != 255

/-- Magnitude of a finite float as an exact numerator over `2 ^ 150`:
subnormals are `frac * 2 ^ (1 - 127 - 23 + 150)` and normals are
`(2 ^ 23 + frac) * 2 ^ (exp - 127 - 23 + 150)`, both over `2 ^ 150`. -/
def valNum (f : Nat) : Nat :=
  if expField f = 0 then 2 * fracField f
  else (2 ^ 23 + fracField f) * 2 ^ expField f

/-- Result of the `std::nearbyint((double)f_val) == (double)f_val` test: a
finite float compares equal to its nearest-integer rounding iff its exact
value is an integer; infinities compare equal to themselves; a NaN compares
unequal. -/
def nearbyintEq (f : Nat) : Bool :=
  if isFinite f then valNum f % 2 ^ 150 == 0
  else fracField f == 0

/-- The C++ conversion `(int64_t)f_val`: truncate toward zero; the result is
defined only when the truncated value is representable in `int64_t`
(C++ [conv.fpint]), otherwise the behaviour is undefined, modelled as
`none`. -/
def int64Cast (f : Nat) : Option Int :=
  if isFinite f then
    let t : Int := (if signBit f == 1 then -1 else 1) * ((valNum f / 2 ^ 150 : Nat) : Int)
    if -(2 ^ 63) ≤ t ∧ t < 2 ^ 63 then some t else none
  else none

/-- One lowercase hex digit, as produced by `%02x`. -/
def hexDigitChar : Nat → Char
  | 0 => '0' | 1 => '1' | 2 => '2' | 3 => '3' | 4 => '4'
  | 5 => '5' | 6 => '6' | 7 => '7' | 8 => '8' | 9 => '9'
  | 10 => 'a' | 11 => 'b' | 12 => 'c' | 13 => 'd' | 14 => 'e'
  | _ => 'f'

/-- Two lowercase hex digits of one byte, as produced by `%02x`. -/
def hex2 (b : Nat) : String :=
  String.mk [hexDigitChar (b / 16 % 16), hexDigitChar (b % 16)]

/-- The 8 hex digits `snprintf("%02x%02x%02x%02x", b[0], b[1], b[2], b[3])`
prints for the float's in-memory bytes (host-native order; little-endian
hosts store the least significant byte first). -/
def hexBytes (f : Nat) : String :=
  hex2 (f % 2 ^ 8) ++ hex2 (f / 2 ^ 8 % 2 ^ 8) ++ hex2 (f / 2 ^ 16 % 2 ^ 8) ++
    hex2 (f / 2 ^ 24 % 2 ^ 8)

/-- `PythonVisitor::writeFloat` (lines 99-124).  `ts` stands for
`std::to_string(f_val)`, the human-readable hint.  The result is `none`
exactly when the source would evaluate the undefined cast `(int64_t)f_val`
(integral magnitude of at least `2 ^ 63`, or an infinity). -/
def writeFloat (ts : Nat → String) (f : Nat) : Option String :=
  if nearbyintEq f then
    if valNum f == 0 && signBit f == 1 then some "-0.0"
    else
      match int64Cast f with
      | some n => some (toString n ++ ".0")
      | none => none
  else some ("bin2float(\x27" ++ ts f ++ "\x27, \x27" ++ hexBytes f ++ "\x27)")

/-- Total wrapper used inside expression emission; the marker string is
produced only for patterns on which `writeFloat` has no defined output. -/
def writeFloatD (ts : Nat → String) (f : Nat) : String :=
  (writeFloat ts f).getD "<UNDEFINED-FLOAT>"

/-! ### Types and symbols -/

/-- The closed set of Tailslide semantic type tags (`LST_*`). -/
inductive LSLIType where
  | tNone | tInteger | tFloat | tString | tKey | tVector | tQuaternion | tList | tError
deriving DecidableEq

/-- `PY_TYPE_NAMES` (lines 64-74). -/
def PY_TYPE_NAMES : LSLIType → String
  | .tNone => "None"
  | .tInteger => "int"
  | .tFloat => "float"
  | .tString => "str"
  | .tKey => "Key"
  | .tVector => "Vector"
  | .tQuaternion => "Quaternion"
  | .tList => "list"
  | .tError => "<ERROR>"

/-- Symbol scope classification (`SYM_BUILTIN` / `SYM_GLOBAL` / `SYM_LOCAL`). -/
inductive SymSubType where
  | SYM_BUILTIN | SYM_GLOBAL | SYM_LOCAL
deriving DecidableEq

/-- A resolved symbol: name, scope classification and type tag. -/
structure LSLSymbol where
  name : String
  subType : SymSubType
  itype : LSLIType

/-- An lvalue reference: its resolved symbol plus the optional
coordinate-member suffix (`lvalue->getMember()`). -/
structure LValueData where
  sym : LSLSymbol
  member : Option String

/-! ### Operators and dispatch (`member_to_offset` lines 331-344, binary
switch lines 429-451, unary switch lines 509-516) -/

/-- Binary operators as dispatched by `visit(LSLBinaryExpression*)`:
`'='` and `OP_MUL_ASSIGN` are handled before the switch, the 18
non-assignment operators each have a case, and `outsideSet` stands for any
other operator value reaching the generator (they are all treated alike by
the `default` branch). -/
inductive BinaryOp where
  | assignOp | mulAssign
  | add | sub | mul | div | mod
  | eq | neq | greater | less | geq | leq
  | boolAnd | boolOr | bitAnd | bitOr | bitXor | shiftL | shiftR
  | outsideSet
deriving DecidableEq

/-- Unary operators as dispatched by `visit(LSLUnaryExpression*)`: the four
increment/decrement forms are handled before the switch, `'-'`, `'~'` and
`'!'` each have a case, and `outsideSetU` stands for any other value. -/
inductive UnaryOp where
  | preIncr | preDecr | postIncr | postDecr
  | neg | bitNot | boolNot
  | outsideSetU
deriving DecidableEq

/-- The switch at lines 429-451: each recognized non-assignment operator
yields its fixed helper-call opener; `.error ()` models the `assert(0)` in
the `default` branch (the assignment operators never reach this switch). -/
def binarySwitchStr : BinaryOp → Except Unit String
  | .add => .ok "radd("
  | .sub => .ok "rsub("
  | .mul => .ok "rmul("
  | .div => .ok "rdiv("
  | .mod => .ok "rmod("
  | .eq => .ok "req("
  | .neq => .ok "rneq("
  | .greater => .ok "rgreater("
  | .less => .ok "rless("
  | .geq => .ok "rgeq("
  | .leq => .ok "rleq("
  | .boolAnd => .ok "rbooland("
  | .boolOr => .ok "rboolor("
  | .bitAnd => .ok "rbitand("
  | .bitOr => .ok "rbitor("
  | .bitXor => .ok "rbitxor("
  | .shiftL => .ok "rshl("
  | .shiftR => .ok "rshr("
  | _ => .error ()

/-- The switch at lines 509-516: `.error ()` models the `assert(0)` in the
`default` branch (the increment/decrement operators never reach it). -/
def unarySwitchStr : UnaryOp → Except Unit String
  | .neg => .ok "neg("
  | .bitNot => .ok "bitnot("
  | .boolNot => .ok "boolnot("
  | _ => .error ()

/-- `member_to_offset` (lines 331-344): the switch reads only `member[0]`;
`.error ()` models the `assert(0)` in the `default` branch. -/
def member_to_offset (member : String) : Except Unit Nat :=
  if member.front = 'x' then .ok 0
  else if member.front = 'y' then .ok 1
  else if member.front = 'z' then .ok 2
  else if member.front = 's' then .ok 3
  else .error ()

/-- `member_to_offset` as compiled with `NDEBUG`: the `default` branch sets
`offset = 0` and the disabled assertion falls through. -/
def member_to_offset_ndebug (member : String) : Nat :=
  if member.front = 'x' then 0
  else if member.front = 'y' then 1
  else if member.front = 'z' then 2
  else if member.front = 's' then 3
  else 0

/-! ### Expression AST and emission

The mutually inductive `ExprList` replaces `List Expr` in the variadic nodes
so that all emission functions are mutual structural recursions (and hence
reduce definitionally). -/

mutual
inductive Expr where
  | intConst (n : Int)
  | floatConst (bits : Nat)
  | stringConst (s : String)
  | keyConst (s : String)
  | vecConst (x y z : Nat)
  | quatConst (x y z s : Nat)
  | vecExpr (children : ExprList)
  | quatExpr (children : ExprList)
  | listExpr (children : ExprList)
  | typecast (toType : LSLIType) (fromType : LSLIType) (child : Expr)
  | funcCall (sym : LSLSymbol) (args : ExprList)
  | lvalue (lv : LValueData)
  | binary (resultNeeded : Bool) (op : BinaryOp) (lhs rhs : Expr)
  | unary (resultNeeded : Bool) (op : UnaryOp) (child : Expr)
  | printE (child : Expr)
  | parens (child : Expr)
  | boolConv (child : Expr)

inductive ExprList where
  | nil
  | cons (head : Expr) (tail : ExprList)
end

/-- Modelled from the spec: Tailslide's `LSLType::getDefaultValue` (called at
lines 180 and 573) is outside this repository; the spec fixes the canonical
zero-values as integer 0, float 0.0, string/key empty, vector/quaternion
all-zero, list empty sequence. -/
def defaultValue : LSLIType → Expr
  | .tInteger => .intConst 0
  | .tFloat => .floatConst 0
  | .tString => .stringConst ""
  | .tKey => .keyConst ""
  | .tVector => .vecConst 0 0 0
  | .tQuaternion => .quatConst 0 0 0 0
  | .tList => .listExpr .nil
  | _ => .intConst 0

/-- Modelled from the spec: Tailslide's `LSLType::getOneValue` (called at
line 504) is outside this repository; the spec describes the emitted
statement as the idiomatic increment/decrement-by-one, and only integer and
float lvalues are incrementable. -/
def getOneValue : LSLIType → Expr
  | .tFloat => .floatConst 0x3F800000
  | _ => .intConst 1

/-- Modelled from the spec: Tailslide's `escape_string` (called at lines 233
and 239) is outside this repository; the spec says strings and keys are
emitted as escaped string literals. -/
def escChar : Char → String
  | '\\' => "\\\\"
  | '"' => "\\\""
  | '\n' => "\\n"
  | '\t' => "\\t"
  | c => String.singleton c

/-- Escape a string literal's content (see `escChar`). -/
def escape_string (s : String) : String :=
  String.join (s.data.map escChar)

/-- The `"self."` prefix placed before global-scope names. -/
def globalSelf : SymSubType → String
  | .SYM_GLOBAL => "self."
  | _ => ""

/-- `visit(LSLLValueExpression*)` (lines 346-354): global references get the
instance-attribute prefix; a member suffix becomes indexing at the member's
fixed offset. -/
def lvalueStr (lv : LValueData) : String :=
  globalSelf lv.sym.subType ++ lv.sym.name ++
    (match lv.member with
     | some m => "[" ++ toString (member_to_offset_ndebug m) ++ "]"
     | none => "")

/-- `PythonVisitor::constructMutatedMember` (lines 356-366), parameterized by
the already-emitted right-hand side text. -/
def constructMutatedMemberStr (sym : LSLSymbol) (m : String) (rhsStr : String) : String :=
  "replace_coord_axis(" ++ globalSelf sym.subType ++ sym.name ++ ", " ++
    toString (member_to_offset_ndebug m) ++ ", " ++ rhsStr ++ ")"

/-- The integer/float constant emission that `getOneValue`'s node receives
when visited (lines 220-229), inlined so the recursion stays structural. -/
def emitSimpleConst (ts : Nat → String) : Expr → String
  | .intConst n => toString n
  | .floatConst b => writeFloatD ts b
  | _ => ""

/-- The increment/decrement half of `visit(LSLUnaryExpression*)`
(lines 462-506), parameterized by the `post` and `negative` flags computed at
lines 463-464.  In expression context (result needed, or a coordinate-member
target) one of the four `{pre,post}{incr,decr}` helpers is called with the
enclosing container and the name; otherwise the idiomatic `+= / -=`
statement is emitted. -/
def incrDecrStr (ts : Nat → String) (rn post negative : Bool) (child : Expr) : String :=
  match child with
  | .lvalue lv =>
    if rn || lv.member.isSome then
      (bif post then "post" else "pre") ++ (bif negative then "decr" else "incr") ++ "(" ++
        (match lv.sym.subType with
         | .SYM_GLOBAL => "self.__dict__"
         | _ => "locals()") ++
        ", \"" ++ lv.sym.name ++ "\"" ++
        (match lv.member with
         | some m => ", " ++ toString (member_to_offset_ndebug m)
         | none => "") ++ ")"
    else
      globalSelf lv.sym.subType ++ lv.sym.name ++
        (bif negative then " -= " else " += ") ++
        emitSimpleConst ts (getOneValue lv.sym.itype)
  | _ => "<CAST-UB>"

mutual
/-- The expression half of the `PythonVisitor`: one case per `visit`
overload.  `<CAST-UB>` marks the places where the C++ blindly casts a
non-lvalue node (undefined behaviour the front end's contract rules out);
`<ERROR>` is exactly what the release build emits after a disabled
`assert(0)`. -/
def emitExpr (ts : Nat → String) : Expr → String
  | .intConst n => toString n
  | .floatConst b => writeFloatD ts b
  | .stringConst s => "\"" ++ escape_string s ++ "\""
  | .keyConst s => "Key(\"" ++ escape_string s ++ "\")"
  | .vecConst x y z =>
    "Vector((" ++ writeFloatD ts x ++ ", " ++ writeFloatD ts y ++ ", " ++
      writeFloatD ts z ++ "))"
  | .quatConst x y z s =>
    "Quaternion((" ++ writeFloatD ts x ++ ", " ++ writeFloatD ts y ++ ", " ++
      writeFloatD ts z ++ ", " ++ writeFloatD ts s ++ "))"
  | .vecExpr cs => "Vector((" ++ emitSep ts cs ++ "))"
  | .quatExpr cs => "Quaternion((" ++ emitSep ts cs ++ "))"
  | .listExpr cs => "[" ++ emitSep ts cs ++ "]"
  | .typecast toT fromT child =>
    if fromT = LSLIType.tInteger ∧ toT = LSLIType.tFloat then
      "float(" ++ emitExpr ts child ++ ")"
    else
      "typecast(" ++ emitExpr ts child ++ ", " ++ PY_TYPE_NAMES toT ++ ")"
  | .funcCall sym args =>
    (match sym.subType with
     | .SYM_BUILTIN => "lslfuncs."
     | _ => "self.") ++ sym.name ++ "(" ++ emitSep ts args ++ ")"
  | .lvalue lv => lvalueStr lv
  | .binary rn op lhs rhs =>
    match op with
    | .assignOp =>
      (match lhs with
       | .lvalue lv =>
         if rn = false then
           globalSelf lv.sym.subType ++ lv.sym.name ++ " = " ++
             (match lv.member with
              | some m => constructMutatedMemberStr lv.sym m (emitExpr ts rhs)
              | none => emitExpr ts rhs)
         else
           (match lv.sym.subType with
            | .SYM_GLOBAL => "assign(self.__dict__, \"" ++ lv.sym.name ++ "\", "
            | _ => "(" ++ lv.sym.name ++ " := ") ++
             (match lv.member with
              | some m => constructMutatedMemberStr lv.sym m (emitExpr ts rhs)
              | none => emitExpr ts rhs) ++ ")" ++
             (match lv.member with
              | some m => "[" ++ toString (member_to_offset_ndebug m) ++ "]"
              | none => "")
       | _ => "<CAST-UB>")
    | .mulAssign =>
      (match lhs with
       | .lvalue lv =>
         (match lv.sym.subType with
          | .SYM_GLOBAL => "assign(self.__dict__, \"" ++ lv.sym.name ++ "\", "
          | _ => "(" ++ lv.sym.name ++ " := ") ++
           "typecast(rmul(" ++ emitExpr ts rhs ++ ", " ++ emitExpr ts lhs ++ "), int))"
       | _ => "<CAST-UB>")
    | _ =>
      (match binarySwitchStr op with
       | .ok s => s
       | .error _ => "<ERROR>") ++
        emitExpr ts rhs ++ ", " ++ emitExpr ts lhs ++ ")"
  | .unary rn op child =>
    match op with
    | .preIncr => incrDecrStr ts rn false false child
    | .preDecr => incrDecrStr ts rn false true child
    | .postIncr => incrDecrStr ts rn true false child
    | .postDecr => incrDecrStr ts rn true true child
    | _ =>
      (match unarySwitchStr op with
       | .ok s => s
       | .error _ => "<ERROR>") ++
        emitExpr ts child ++ ")"
  | .printE c => "print(" ++ emitExpr ts c ++ ")"
  | .parens c => "(" ++ emitExpr ts c ++ ")"
  | .boolConv c => "cond(" ++ emitExpr ts c ++ ")"

/-- `writeChildrenSep(parent, ", ")` (lines 91-97) over the child list. -/
def emitSep (ts : Nat → String) : ExprList → String
  | .nil => ""
  | .cons e .nil => emitExpr ts e
  | .cons e rest => emitExpr ts e ++ ", " ++ emitSep ts rest
end

/-! ### Statement AST and emission -/

/-- `doTabs()` (lines 57-61): four spaces per indentation level. -/
def doTabs : Nat → String
  | 0 => ""
  | n + 1 => doTabs n ++ "    "

mutual
inductive Stmt where
  | nop
  | compound (stmts : StmtList)
  | exprStmt (e : Expr)
  | decl (sym : LSLSymbol) (init : Option Expr)
  | ifS (cond : Expr) (trueBranch : Stmt) (falseBranch : StmtOpt)
  | forS (initExprs : List Expr) (cond : Expr) (body : Stmt) (incrExprs : List Expr)
  | whileS (cond : Expr) (body : Stmt)
  | doS (body : Stmt) (cond : Expr)
  | jump (labelName : String)
  | labelS (labelName : String)
  | ret (e : Option Expr)
  | stateChange (stateName : String)

inductive StmtList where
  | nil
  | cons (head : Stmt) (tail : StmtList)

/-- The optional `else` branch of an `if`. -/
inductive StmtOpt where
  | noneS
  | someS (s : Stmt)
end

/-- The init/increment clauses of a `for` statement, each emitted as a line
of its own (lines 602-606 and 625-629). -/
def emitExprLines (ts : Nat → String) (tabs : Nat) : List Expr → String
  | [] => ""
  | e :: rest => doTabs tabs ++ emitExpr ts e ++ "\n" ++ emitExprLines ts tabs rest

mutual
/-- The statement half of the `PythonVisitor` (lines 544-697), one case per
`visit` overload, with `mTabs` as the explicit `tabs` argument. -/
def emitStmt (ts : Nat → String) (tabs : Nat) : Stmt → String
  | .nop => doTabs tabs ++ "pass\n"
  | .compound l =>
    (match l with
     | .nil => doTabs tabs ++ "pass\n"
     | _ => emitStmtList ts tabs l)
  | .exprStmt e => doTabs tabs ++ emitExpr ts e ++ "\n"
  | .decl sym init =>
    doTabs tabs ++ sym.name ++ ": " ++ PY_TYPE_NAMES sym.itype ++ " = " ++
      emitExpr ts (init.getD (defaultValue sym.itype)) ++ "\n"
  | .ifS cond t f =>
    doTabs tabs ++ "if " ++ emitExpr ts cond ++ ":\n" ++
      emitStmt ts (tabs + 1) t ++ emitStmtOpt ts tabs f
  | .forS initExprs cond body incrExprs =>
    emitExprLines ts tabs initExprs ++
      doTabs tabs ++ "while True:\n" ++
      doTabs (tabs + 1) ++ "if not " ++ emitExpr ts cond ++ ":\n" ++
      doTabs (tabs + 2) ++ "break\n" ++
      emitStmt ts (tabs + 1) body ++
      emitExprLines ts (tabs + 1) incrExprs
  | .whileS cond body =>
    doTabs tabs ++ "while " ++ emitExpr ts cond ++ ":\n" ++ emitStmt ts (tabs + 1) body
  | .doS body cond =>
    doTabs tabs ++ "while True:\n" ++ emitStmt ts (tabs + 1) body ++
      doTabs (tabs + 1) ++ "if not " ++ emitExpr ts cond ++ ":\n" ++
      doTabs (tabs + 2) ++ "break\n"
  | .jump l => doTabs tabs ++ "goto ." ++ l ++ "\n"
  | .labelS l => doTabs tabs ++ "label ." ++ l ++ "\n"
  | .ret e =>
    doTabs tabs ++
      (match e with
       | some ex => "return " ++ emitExpr ts ex
       | none => "return") ++ "\n"
  | .stateChange n => doTabs tabs ++ "raise StateChangeException(\x27" ++ n ++ "\x27)\n"

/-- `visitChildren` over a compound statement's children. -/
def emitStmtList (ts : Nat → String) (tabs : Nat) : StmtList → String
  | .nil => ""
  | .cons s rest => emitStmt ts tabs s ++ emitStmtList ts tabs rest

/-- The optional `else:` block of `visit(LSLIfStatement*)` (lines 589-596). -/
def emitStmtOpt (ts : Nat → String) (tabs : Nat) : StmtOpt → String
  | .noneS => ""
  | .someS fb => doTabs tabs ++ "else:\n" ++ emitStmt ts (tabs + 1) fb
end

/-! ### Script-level structure (globals, functions, states, handlers) -/

/-- A global variable declaration: identifier name, type tag, optional
initializer. -/
structure GlobalVar where
  name : String
  itype : LSLIType
  init : Option Expr

/-- A function or event-handler parameter. -/
structure FuncArg where
  name : String
  itype : LSLIType

/-- A global (user-defined) function. -/
structure GlobalFunc where
  name : String
  retType : LSLIType
  args : List FuncArg
  body : Stmt

/-- One entry of the script's ordered global-definition list, which
interleaves variables and functions in source order. -/
inductive GlobalDef where
  | var (v : GlobalVar)
  | func (f : GlobalFunc)

/-- An event handler: event name, handler identifier type, parameters,
body. -/
structure EventHandler where
  name : String
  retType : LSLIType
  args : List FuncArg
  body : Stmt

/-- A state definition: its name and its ordered event handlers. -/
structure StateDef where
  name : String
  handlers : List EventHandler

/-- The script root: ordered global definitions and ordered states. -/
structure Script where
  globals : List GlobalDef
  states : List StateDef

/-- Concatenation of emitted pieces (the output buffer accumulates them in
order). -/
def strConcat : List String → String
  | [] => ""
  | s :: rest => s ++ strConcat rest

/-- The parameter list loop shared by functions and handlers
(lines 193-195 and 210-212). -/
def argListStr : List FuncArg → String
  | [] => ""
  | a :: rest => ", " ++ a.name ++ ": " ++ PY_TYPE_NAMES a.itype ++ argListStr rest

/-- `visit(LSLGlobalVariable*)` (lines 174-185): assign the initializer, or
the type's default value when there is none. -/
def emitGlobalVar (ts : Nat → String) (tabs : Nat) (v : GlobalVar) : String :=
  doTabs tabs ++ "self." ++ v.name ++ " = " ++
    emitExpr ts (v.init.getD (defaultValue v.itype)) ++ "\n"

/-- `visit(LSLGlobalFunction*)` (lines 187-201). -/
def emitGlobalFunction (ts : Nat → String) (tabs : Nat) (f : GlobalFunc) : String :=
  doTabs tabs ++ "@with_goto\n" ++ doTabs tabs ++ "def " ++ f.name ++ "(self" ++
    argListStr f.args ++ ") -> " ++ PY_TYPE_NAMES f.retType ++ ":\n" ++
    emitStmt ts (tabs + 1) f.body ++ "\n"

/-- `visit(LSLEventHandler*)` (lines 203-218): the method name concatenates a
literal `"e"`, the owning state's name and the event name, and the method is
wrapped with the `@with_goto` decorator. -/
def emitEventHandler (ts : Nat → String) (tabs : Nat) (stateName : String)
    (h : EventHandler) : String :=
  doTabs tabs ++ "@with_goto\n" ++ doTabs tabs ++ "def e" ++ stateName ++ h.name ++
    "(self" ++ argListStr h.args ++ ") -> " ++ PY_TYPE_NAMES h.retType ++ ":\n" ++
    emitStmt ts (tabs + 1) h.body ++ "\n"

/-- A state's emission: the default visitor just walks into the handlers. -/
def emitState (ts : Nat → String) (tabs : Nat) (st : StateDef) : String :=
  strConcat (st.handlers.map (emitEventHandler ts tabs st.name))

/-- `visit(LSLScript*)` (lines 126-172), operating on the tree after the
desugaring pass: class-level type declarations for the global variables (the
first pass skips functions), the `__init__` assigning them, then the global
functions, then the states' handlers. -/
def emitScript (ts : Nat → String) (s : Script) : String :=
  "from lummao import *\n\n\n" ++ "class Script(BaseLSLScript):\n" ++
    strConcat (s.globals.map fun g =>
      match g with
      | .var v => doTabs 1 ++ v.name ++ ": " ++ PY_TYPE_NAMES v.itype ++ "\n"
      | .func _ => "") ++
    "\n" ++ doTabs 1 ++ "def __init__(self):\n" ++
    doTabs 2 ++ "super().__init__()\n" ++
    strConcat (s.globals.map fun g =>
      match g with
      | .var v => emitGlobalVar ts 2 v
      | .func _ => "") ++
    "\n" ++
    strConcat (s.globals.map fun g =>
      match g with
      | .func f => emitGlobalFunction ts 1 f
      | .var _ => "") ++
    strConcat (s.states.map (emitState ts 1))

/-- The global variables of a script, in source order. -/
def globalVars (s : Script) : List GlobalVar :=
  s.globals.filterMap fun g =>
    match g with
    | .var v => some v
    | .func _ => none

/-! ### The driver (`main`, lines 701-757) -/

/-- The distinct `fprintf(stderr, ...)` diagnostics `main` can print (the
front end's own error report goes through `logger->report()`, a separate
channel modelled by `MainOutcome.reportRan`). -/
inductive StderrMsg where
  | usage
  | inputOpenFail
  | outputOpenFail
deriving DecidableEq

/-- The input argument: `"-"` (read the standard input stream) or a path
that does or does not open. -/
inductive InSrc where
  | stdinSrc
  | fileSrc (opens : Bool)
deriving DecidableEq

/-- The output argument: `"-"` (write the standard output stream) or a path;
`openGood` is the `py_out.good()` test after construction, `writeSucceeds`
tells whether the bytes of `py_out.write` actually reach the destination
(the source never examines this). -/
inductive OutDest where
  | stdoutDest
  | fileDest (openGood : Bool) (writeSucceeds : Bool)
deriving DecidableEq

/-- The environment `main` runs against: whether `argc == 3`, the input
source, whether parsing produced a script, the front end's accumulated error
count after all passes, and the output destination. -/
structure MainEnv where
  argcIs3 : Bool
  input : InSrc
  parseOk : Bool
  errors : Nat
  out : OutDest
deriving DecidableEq

/-- What one run of `main` does: the value `main` returns, whether the
generation visitor ran, whether the emitted text durably reached the
destination, which distinct diagnostics were printed, and whether
`logger->report()` ran. -/
structure MainOutcome where
  exitCode : Nat
  generated : Bool
  outputDurable : Bool
  stderrMsgs : List StderrMsg
  reportRan : Bool
deriving DecidableEq

/-- Does the input argument open (the `"-"` marker skips `fopen`)? -/
def inputOpens : InSrc → Bool
  | .stdinSrc => true
  | .fileSrc b => b

/-- `main` (lines 701-757): usage check, input open, front-end passes and
report, then — only with zero errors — generation and output; the return
value is `logger->getErrors()` unless an early `return 1` fired.  `none`
models the null-script dereference the front-end contract rules out. -/
def lummaoMain (env : MainEnv) : Option MainOutcome :=
  if env.argcIs3 = false then some ⟨1, false, false, [.usage], false⟩
  else if inputOpens env.input = false then some ⟨1, false, false, [.inputOpenFail], false⟩
  else if env.errors = 0 then
    if env.parseOk = false then none
    else
      match env.out with
      | .stdoutDest => some ⟨0, true, true, [], true⟩
      | .fileDest true w => some ⟨0, true, w, [], true⟩
      | .fileDest false _ => some ⟨1, true, false, [.outputOpenFail], true⟩
  else some ⟨env.errors, false, false, [], true⟩

/-- A fixed instantiation of the uninterpreted `std::to_string` parameter,
for the closed concrete statements below. -/
def tsD : Nat → String := fun _ => ""

/-- The bit pattern of the 32-bit float `2^63` (sign 0, biased exponent 190,
mantissa 0): the smallest positive integral float whose value exceeds
`INT64_MAX`. -/
def f2p63 : Nat := 0x5F000000

/-! ### Helper lemmas -/

/-- Appending to the empty string is the identity. -/
theorem empty_append_str (s : String) : "" ++ s = s := by
  cases s
  rfl

/-- The release-build offset agrees with the asserting version on every
member name the assertion accepts. -/
theorem member_to_offset_ndebug_of_ok (m : String) (k : Nat)
    (h : member_to_offset m = .ok k) : member_to_offset_ndebug m = k := by
  unfold member_to_offset at h
  unfold member_to_offset_ndebug
  split_ifs at h ⊢ <;> simp_all

/-- The first pass over the globals (class-level type declarations) visits
exactly the global variables, in source order. -/
theorem strConcat_decl_pass (l : List GlobalDef) :
    strConcat (l.map fun g =>
      match g with
      | .var v => doTabs 1 ++ v.name ++ ": " ++ PY_TYPE_NAMES v.itype ++ "\n"
      | .func _ => "") =
    strConcat (((l.filterMap fun g =>
      match g with
      | .var v => some v
      | .func _ => none)).map fun v =>
        doTabs 1 ++ v.name ++ ": " ++ PY_TYPE_NAMES v.itype ++ "\n") := by
  induction l with
  | nil => rfl
  | cons g t ih =>
    cases g with
    | var v => simp [strConcat, List.filterMap_cons, ih]
    | func f => simp [strConcat, List.filterMap_cons, ih, empty_append_str]

/-- The second pass over the globals (the `__init__` assignments) also visits
exactly the global variables, in source order. -/
theorem strConcat_init_pass (ts : Nat → String) (l : List GlobalDef) :
    strConcat (l.map fun g =>
      match g with
      | .var v => emitGlobalVar ts 2 v
      | .func _ => "") =
    strConcat (((l.filterMap fun g =>
      match g with
      | .var v => some v
      | .func _ => none)).map fun v => emitGlobalVar ts 2 v) := by
  induction l with
  | nil => rfl
  | cons g t ih =>
    cases g with
    | var v => simp [strConcat, List.filterMap_cons, ih]
    | func f => simp [strConcat, List.filterMap_cons, ih, empty_append_str]

/-- `emitExprLines` is the concatenation of one emitted line per clause, in
order. -/
theorem emitExprLines_strConcat (ts : Nat → String) (tabs : Nat) (l : List Expr) :
    emitExprLines ts tabs l =
      strConcat (l.map fun e => doTabs tabs ++ emitExpr ts e ++ "\n") := by
  induction l with
  | nil => rfl
  | cons e rest ih => simp [emitExprLines, strConcat, ih]

/-! ### The claims -/

/-- C1: the float-encoding claim fails on the code.  At the finite float
`2^63` (pattern `0x5F000000`) the `nearbyint` test succeeds, so the source
takes the "decimal integer form" path and evaluates `(int64_t)f_val`; the
value `2^63` exceeds `INT64_MAX`, making that conversion undefined
(modelled as `none`), so the emitted text cannot denote `f` — contrary to
the claim (and to the code's own "without loss of precision" comment). -/
theorem writeFloat_two_pow_63_bug : ∀ ts : Nat → String,
    nearbyintEq f2p63 = true ∧
    signBit f2p63 = 0 ∧
    (valNum f2p63 / 2 ^ 150 : Nat) = 2 ^ 63 ∧
    int64Cast f2p63 = none ∧
    writeFloat ts f2p63 = none :=
  fun _ => ⟨by decide, by decide, by decide, by decide, rfl⟩

/-- C2: every non-assignment binary operator in the closed set is emitted as
a call to its fixed runtime helper with the right operand's translation
first and the left operand's second, without exception. -/
theorem binary_nonassign_rhs_first : ∀ (ts : Nat → String) (rn : Bool) (l r : Expr),
    emitExpr ts (.binary rn .add l r) = "radd(" ++ emitExpr ts r ++ ", " ++ emitExpr ts l ++ ")" ∧
    emitExpr ts (.binary rn .sub l r) = "rsub(" ++ emitExpr ts r ++ ", " ++ emitExpr ts l ++ ")" ∧
    emitExpr ts (.binary rn .mul l r) = "rmul(" ++ emitExpr ts r ++ ", " ++ emitExpr ts l ++ ")" ∧
    emitExpr ts (.binary rn .div l r) = "rdiv(" ++ emitExpr ts r ++ ", " ++ emitExpr ts l ++ ")" ∧
    emitExpr ts (.binary rn .mod l r) = "rmod(" ++ emitExpr ts r ++ ", " ++ emitExpr ts l ++ ")" ∧
    emitExpr ts (.binary rn .eq l r) = "req(" ++ emitExpr ts r ++ ", " ++ emitExpr ts l ++ ")" ∧
    emitExpr ts (.binary rn .neq l r) = "rneq(" ++ emitExpr ts r ++ ", " ++ emitExpr ts l ++ ")" ∧
    emitExpr ts (.binary rn .greater l r) = "rgreater(" ++ emitExpr ts r ++ ", " ++ emitExpr ts l ++ ")" ∧
    emitExpr ts (.binary rn .less l r) = "rless(" ++ emitExpr ts r ++ ", " ++ emitExpr ts l ++ ")" ∧
    emitExpr ts (.binary rn .geq l r) = "rgeq(" ++ emitExpr ts r ++ ", " ++ emitExpr ts l ++ ")" ∧
    emitExpr ts (.binary rn .leq l r) = "rleq(" ++ emitExpr ts r ++ ", " ++ emitExpr ts l ++ ")" ∧
    emitExpr ts (.binary rn .boolAnd l r) = "rbooland(" ++ emitExpr ts r ++ ", " ++ emitExpr ts l ++ ")" ∧
    emitExpr ts (.binary rn .boolOr l r) = "rboolor(" ++ emitExpr ts r ++ ", " ++ emitExpr ts l ++ ")" ∧
    emitExpr ts (.binary rn .bitAnd l r) = "rbitand(" ++ emitExpr ts r ++ ", " ++ emitExpr ts l ++ ")" ∧
    emitExpr ts (.binary rn .bitOr l r) = "rbitor(" ++ emitExpr ts r ++ ", " ++ emitExpr ts l ++ ")" ∧
    emitExpr ts (.binary rn .bitXor l r) = "rbitxor(" ++ emitExpr ts r ++ ", " ++ emitExpr ts l ++ ")" ∧
    emitExpr ts (.binary rn .shiftL l r) = "rshl(" ++ emitExpr ts r ++ ", " ++ emitExpr ts l ++ ")" ∧
    emitExpr ts (.binary rn .shiftR l r) = "rshr(" ++ emitExpr ts r ++ ", " ++ emitExpr ts l ++ ")" :=
  fun _ _ _ _ =>
    ⟨rfl, rfl, rfl, rfl, rfl, rfl, rfl, rfl, rfl, rfl, rfl, rfl, rfl, rfl, rfl, rfl, rfl, rfl⟩

/-- C3: a plain assignment whose target is a coordinate member never indexes
the target on the left-hand side; it rebinds the whole variable/attribute to
a `replace_coord_axis` copy with exactly the selected component replaced,
and in value-used context the new composite is indexed back at the member's
offset to yield the expression's result. -/
theorem member_assign_rebind :
    ∀ (ts : Nat → String) (sym : LSLSymbol) (m : String) (k : Nat) (rhs : Expr),
    member_to_offset m = .ok k →
    (emitExpr ts (.binary false .assignOp (.lvalue ⟨sym, some m⟩) rhs) =
      globalSelf sym.subType ++ sym.name ++ " = " ++
        ("replace_coord_axis(" ++ globalSelf sym.subType ++ sym.name ++ ", " ++
          toString k ++ ", " ++ emitExpr ts rhs ++ ")")) ∧
    (sym.subType = .SYM_GLOBAL →
      emitExpr ts (.binary true .assignOp (.lvalue ⟨sym, some m⟩) rhs) =
        "assign(self.__dict__, \"" ++ sym.name ++ "\", " ++
          ("replace_coord_axis(" ++ "self." ++ sym.name ++ ", " ++
            toString k ++ ", " ++ emitExpr ts rhs ++ ")") ++ ")" ++
          ("[" ++ toString k ++ "]")) ∧
    (sym.subType = .SYM_LOCAL →
      emitExpr ts (.binary true .assignOp (.lvalue ⟨sym, some m⟩) rhs) =
        "(" ++ sym.name ++ " := " ++
          ("replace_coord_axis(" ++ sym.name ++ ", " ++
            toString k ++ ", " ++ emitExpr ts rhs ++ ")") ++ ")" ++
          ("[" ++ toString k ++ "]")) := by
  intro ts sym m k rhs h
  have hnd := member_to_offset_ndebug_of_ok m k h
  obtain ⟨nm, st, ty⟩ := sym
  refine ⟨?_, ?_, ?_⟩
  · cases st <;> simp [emitExpr, constructMutatedMemberStr, globalSelf, hnd]
  · intro hst
    simp only at hst
    subst hst
    simp [emitExpr, constructMutatedMemberStr, globalSelf, hnd]
  · intro hst
    simp only at hst
    subst hst
    simp [emitExpr, constructMutatedMemberStr, globalSelf, hnd]

/-- C3 witness: the statement-context member assignment `v.x = 5` for a
local vector `v` emits a rebind of `v` to the replaced composite. -/
theorem member_assign_rebind_witness :
    emitExpr tsD
      (.binary false .assignOp (.lvalue ⟨⟨"v", .SYM_LOCAL, .tVector⟩, some "x"⟩)
        (.intConst 5)) =
      "v = replace_coord_axis(v, 0, 5)" := by
  have h := (member_assign_rebind tsD ⟨"v", .SYM_LOCAL, .tVector⟩ "x" 0
    (.intConst 5) rfl).1
  exact h

/-- C4: the script emission declares every global variable exactly once at
class scope in source order, whether or not it has an initializer, and
`__init__` then assigns every global in the same source order, using the
declared initializer or the type's canonical zero-value; the zero-values
are the spec's table (integer 0, float 0.0, string/key empty,
vector/quaternion all-zero, list empty). -/
theorem script_globals_layout : ∀ (ts : Nat → String) (s : Script),
    emitScript ts s =
      "from lummao import *\n\n\n" ++ "class Script(BaseLSLScript):\n" ++
        strConcat ((globalVars s).map fun v =>
          doTabs 1 ++ v.name ++ ": " ++ PY_TYPE_NAMES v.itype ++ "\n") ++
        "\n" ++ doTabs 1 ++ "def __init__(self):\n" ++
        doTabs 2 ++ "super().__init__()\n" ++
        strConcat ((globalVars s).map fun v =>
          doTabs 2 ++ "self." ++ v.name ++ " = " ++
            emitExpr ts (v.init.getD (defaultValue v.itype)) ++ "\n") ++
        "\n" ++
        strConcat (s.globals.map fun g =>
          match g with
          | .func f => emitGlobalFunction ts 1 f
          | .var _ => "") ++
        strConcat (s.states.map (emitState ts 1)) ∧
    emitExpr ts (defaultValue .tInteger) = "0" ∧
    emitExpr ts (defaultValue .tFloat) = "0.0" ∧
    emitExpr ts (defaultValue .tString) = "\"\"" ∧
    emitExpr ts (defaultValue .tKey) = "Key(\"\")" ∧
    emitExpr ts (defaultValue .tVector) = "Vector((0.0, 0.0, 0.0))" ∧
    emitExpr ts (defaultValue .tQuaternion) = "Quaternion((0.0, 0.0, 0.0, 0.0))" ∧
    emitExpr ts (defaultValue .tList) = "[]" := by
  intro ts s
  refine ⟨?_, rfl, rfl, rfl, rfl, rfl, rfl, rfl⟩
  simp only [emitScript, globalVars, strConcat_decl_pass, strConcat_init_pass]
  simp only [emitGlobalVar]

/-- C5: a counted loop emits its init clauses in order as preceding
statements, then an unconditional `while True:` loop whose body is the
negated-condition break check, the body's translation, then the increment
clauses in order — never Python's native `for` construct. -/
theorem for_statement_shape :
    ∀ (ts : Nat → String) (tabs : Nat) (initExprs : List Expr) (cond : Expr)
      (body : Stmt) (incrExprs : List Expr),
    emitStmt ts tabs (.forS initExprs cond body incrExprs) =
      strConcat (initExprs.map fun e => doTabs tabs ++ emitExpr ts e ++ "\n") ++
        doTabs tabs ++ "while True:\n" ++
        doTabs (tabs + 1) ++ "if not " ++ emitExpr ts cond ++ ":\n" ++
        doTabs (tabs + 2) ++ "break\n" ++
        emitStmt ts (tabs + 1) body ++
        strConcat (incrExprs.map fun e => doTabs (tabs + 1) ++ emitExpr ts e ++ "\n") := by
  intro ts tabs initExprs cond body incrExprs
  simp only [emitStmt, emitExprLines_strConcat]

/-- C6: a pre/post increment/decrement whose result is unused and whose
target is not a coordinate member emits the idiomatic `+= 1` / `-= 1`
statement on the (possibly attribute-prefixed) target; otherwise it emits a
call to the matching one of the four `{pre,post}{incr,decr}` helpers,
passing the enclosing container (`self.__dict__` for globals, `locals()`
for locals), the variable's name, and the member offset when the target is
a coordinate member. -/
theorem incr_decr_emission : ∀ (ts : Nat → String) (rn : Bool) (lv : LValueData),
    (∀ op : UnaryOp,
      (op = .preIncr ∨ op = .preDecr ∨ op = .postIncr ∨ op = .postDecr) →
      rn = false → lv.member = none →
      emitExpr ts (.unary rn op (.lvalue lv)) =
        globalSelf lv.sym.subType ++ lv.sym.name ++
          (if op = .preDecr ∨ op = .postDecr then " -= " else " += ") ++
          emitSimpleConst ts (getOneValue lv.sym.itype)) ∧
    (∀ op : UnaryOp,
      (op = .preIncr ∨ op = .preDecr ∨ op = .postIncr ∨ op = .postDecr) →
      (rn = true ∨ lv.member ≠ none) →
      emitExpr ts (.unary rn op (.lvalue lv)) =
        (if op = .postIncr ∨ op = .postDecr then "post" else "pre") ++
          (if op = .preDecr ∨ op = .postDecr then "decr" else "incr") ++ "(" ++
          (match lv.sym.subType with
           | .SYM_GLOBAL => "self.__dict__"
           | _ => "locals()") ++
          ", \"" ++ lv.sym.name ++ "\"" ++
          (match lv.member with
           | some m => ", " ++ toString (member_to_offset_ndebug m)
           | none => "") ++ ")") ∧
    emitSimpleConst ts (getOneValue .tInteger) = "1" ∧
    emitSimpleConst ts (getOneValue .tFloat) = "1.0" := by
  intro ts rn lv
  obtain ⟨⟨nm, st, ty⟩, mem⟩ := lv
  refine ⟨?_, ?_, rfl, rfl⟩
  · intro op hop hrn hm
    simp only at hm
    subst hrn hm
    rcases hop with h | h | h | h <;> subst h <;>
      simp [emitExpr, incrDecrStr]
  · intro op hop hctx
    rcases hop with h | h | h | h <;> subst h <;>
      rcases hctx with hrn | hmem <;>
        [skip; skip; skip; skip; skip; skip; skip; skip] <;>
      first
      | (subst hrn; cases mem <;> simp [emitExpr, incrDecrStr])
      | (simp only at hmem
         cases mem with
         | none => exact absurd rfl hmem
         | some m => cases rn <;> simp [emitExpr, incrDecrStr])

/-- C6 witness: a pre-increment of a local integer `i` with unused result
emits `i += 1`; the same pre-increment with the result needed emits the
helper-call form. -/
theorem incr_decr_emission_witness :
    emitExpr tsD (.unary false .preIncr (.lvalue ⟨⟨"i", .SYM_LOCAL, .tInteger⟩, none⟩)) =
      "i += 1" ∧
    emitExpr tsD (.unary true .preIncr (.lvalue ⟨⟨"i", .SYM_LOCAL, .tInteger⟩, none⟩)) =
      "preincr(locals(), \"i\")" := by
  constructor
  · have h := (incr_decr_emission tsD false ⟨⟨"i", .SYM_LOCAL, .tInteger⟩, none⟩).1
      .preIncr (Or.inl rfl) rfl rfl
    exact h
  · have h := (incr_decr_emission tsD true ⟨⟨"i", .SYM_LOCAL, .tInteger⟩, none⟩).2.1
      .preIncr (Or.inl rfl) (Or.inl rfl)
    exact h

/-- C7 counterexample: for a `touch_start` handler of state `default` the
emitted method name is not the bare concatenation `defaulttouch_start` of
the state and event names as the claim states; it is `edefaulttouch_start`,
with a literal `e` marker in front. -/
theorem event_handler_name_counterexample :
    emitEventHandler tsD 1 "default" ⟨"touch_start", .tNone, [], .compound .nil⟩ ≠
      doTabs 1 ++ "@with_goto\n" ++ doTabs 1 ++ "def " ++ ("default" ++ "touch_start") ++
        "(self) -> None:\n" ++ doTabs 2 ++ "pass\n" ++ "\n" ∧
    emitEventHandler tsD 1 "default" ⟨"touch_start", .tNone, [], .compound .nil⟩ =
      doTabs 1 ++ "@with_goto\n" ++ doTabs 1 ++ "def " ++ ("e" ++ ("default" ++ "touch_start")) ++
        "(self) -> None:\n" ++ doTabs 2 ++ "pass\n" ++ "\n" := by
  constructor
  · decide
  · decide

/-- C7 amended: an event handler method is named by a fixed `e` marker
followed by the owning state's name followed by the event's name (one
character longer than the bare concatenation the original claim described),
and the method is wrapped with the `@with_goto` decorator so the goto/label
primitive works in its body. -/
theorem event_handler_emission_shape :
    ∀ (ts : Nat → String) (tabs : Nat) (stateName : String) (h : EventHandler),
    emitEventHandler ts tabs stateName h =
      doTabs tabs ++ "@with_goto\n" ++ doTabs tabs ++ "def e" ++ stateName ++ h.name ++
        "(self" ++ argListStr h.args ++ ") -> " ++ PY_TYPE_NAMES h.retType ++ ":\n" ++
        emitStmt ts (tabs + 1) h.body ++ "\n" ∧
    ("e" ++ stateName ++ h.name).length = stateName.length + h.name.length + 1 := by
  intro ts tabs stateName h
  refine ⟨rfl, ?_⟩
  have he : ("e" : String).length = 1 := rfl
  simp only [String.length_append, he]
  omega

/-- C8: every binary or unary operator outside the closed sets the generator
recognizes, and every member name whose first character is not one of
`x`/`y`/`z`/`s`, reaches a `default` branch whose `assert(0)` aborts
(modelled by `.error ()`) instead of producing a user-facing diagnostic;
conversely every recognized operator and member name avoids those default
branches, so under the front-end contract they are unreachable. -/
theorem closed_set_dispatch_defaults :
    binarySwitchStr .outsideSet = .error () ∧
    unarySwitchStr .outsideSetU = .error () ∧
    (∀ op : BinaryOp, op ≠ .outsideSet →
      op = .assignOp ∨ op = .mulAssign ∨ ∃ s, binarySwitchStr op = .ok s) ∧
    (∀ op : UnaryOp, op ≠ .outsideSetU →
      op = .preIncr ∨ op = .preDecr ∨ op = .postIncr ∨ op = .postDecr ∨
        ∃ s, unarySwitchStr op = .ok s) ∧
    (∀ m : String, m.front ≠ 'x' → m.front ≠ 'y' → m.front ≠ 'z' → m.front ≠ 's' →
      member_to_offset m = .error ()) ∧
    (∀ m : String, (m.front = 'x' ∨ m.front = 'y' ∨ m.front = 'z' ∨ m.front = 's') →
      ∃ k, member_to_offset m = .ok k) := by
  refine ⟨rfl, rfl, ?_, ?_, ?_, ?_⟩
  · intro op h
    cases op <;> simp [binarySwitchStr] at h ⊢
  · intro op h
    cases op <;> simp [unarySwitchStr] at h ⊢
  · intro m h1 h2 h3 h4
    simp [member_to_offset, h1, h2, h3, h4]
  · intro m h
    rcases h with h | h | h | h <;> simp [member_to_offset, h]

/-- C8 witness: the recognized operator `+` dispatches to its helper, the
member name `q` trips the assertion, and the member name `xyz` does not. -/
theorem closed_set_dispatch_defaults_witness :
    (BinaryOp.add = .assignOp ∨ BinaryOp.add = .mulAssign ∨
      ∃ s, binarySwitchStr .add = .ok s) ∧
    member_to_offset "q" = .error () ∧
    (∃ k, member_to_offset "xyz" = .ok k) := by
  refine ⟨?_, ?_, ?_⟩
  · exact closed_set_dispatch_defaults.2.2.1 .add (by decide)
  · exact closed_set_dispatch_defaults.2.2.2.2.1 "q" (by decide) (by decide) (by decide)
      (by decide)
  · exact closed_set_dispatch_defaults.2.2.2.2.2 "xyz" (Or.inl (by decide))

/-- C9 counterexample: with three arguments, an input that opens, a parsed
script, zero front-end errors, and an output file that opens but whose
write fails (for example a full disk), `main` returns 0 and prints no
diagnostic — it never examines `py_out.write`'s result — so a failure to
write the output destination does not yield a non-zero status as the claim
states. -/
theorem main_write_failure_counterexample :
    lummaoMain ⟨true, .fileSrc true, true, 0, .fileDest true false⟩ =
      some ⟨0, true, false, [], true⟩ := by decide

/-- C9 amended: with valid arguments, an input that opens and a parsed
script, the value `main` returns equals the front end's accumulated error
count, zero meaning success and that generation ran; a failure to open the
output destination yields status 1 together with a dedicated stderr
diagnostic distinct from the front-end error report; a failure during the
write itself, after a successful open, goes undetected and leaves the
status at the error count. -/
theorem main_exit_code_amended : ∀ env : MainEnv,
    env.argcIs3 = true → inputOpens env.input = true → env.parseOk = true →
    ((env.errors ≠ 0 → lummaoMain env = some ⟨env.errors, false, false, [], true⟩) ∧
     (env.errors = 0 → env.out = .stdoutDest →
       lummaoMain env = some ⟨0, true, true, [], true⟩) ∧
     (∀ w, env.errors = 0 → env.out = .fileDest true w →
       lummaoMain env = some ⟨0, true, w, [], true⟩) ∧
     (∀ w, env.errors = 0 → env.out = .fileDest false w →
       lummaoMain env = some ⟨1, true, false, [.outputOpenFail], true⟩ ∧ (1 : Nat) ≠ 0)) := by
  intro env h1 h2 h3
  obtain ⟨a, inp, p, e, o⟩ := env
  simp only at h1 h2 h3
  subst h1 h3
  refine ⟨?_, ?_, ?_, ?_⟩
  · intro he
    simp [lummaoMain, h2, he]
  · intro he ho
    simp only at ho
    subst he ho
    simp [lummaoMain, h2]
  · intro w he ho
    simp only at ho
    subst he ho
    simp [lummaoMain, h2]
  · intro w he ho
    simp only at ho
    subst he ho
    exact ⟨by simp [lummaoMain, h2], by decide⟩

/-- C9 amended witness: three front-end errors give return value 3 with no
generation; a zero-error run whose output file fails to open gives return
value 1 and the dedicated diagnostic. -/
theorem main_exit_code_amended_witness :
    lummaoMain ⟨true, .stdinSrc, true, 3, .fileDest true true⟩ =
      some ⟨3, false, false, [], true⟩ ∧
    lummaoMain ⟨true, .stdinSrc, true, 0, .fileDest false true⟩ =
      some ⟨1, true, false, [.outputOpenFail], true⟩ := by
  constructor
  · exact (main_exit_code_amended ⟨true, .stdinSrc, true, 3, .fileDest true true⟩
      rfl rfl rfl).1 (by decide)
  · exact ((main_exit_code_amended ⟨true, .stdinSrc, true, 0, .fileDest false true⟩
      rfl rfl rfl).2.2.2 true rfl rfl).1

/-- C10: the emitted coordinate-member offset is determined solely by the
first character of the member identifier — `x` gives 0, `y` 1, `z` 2, `s` 3
— whatever the remaining characters are; any other first character trips
the assertion (offset 0 when assertions are disabled); and a member access
emits an index at exactly that offset. -/
theorem member_offset_first_char :
    (∀ m1 m2 : String, m1.front = m2.front →
      member_to_offset m1 = member_to_offset m2 ∧
      member_to_offset_ndebug m1 = member_to_offset_ndebug m2) ∧
    (∀ m : String, m.front = 'x' → member_to_offset m = .ok 0) ∧
    (∀ m : String, m.front = 'y' → member_to_offset m = .ok 1) ∧
    (∀ m : String, m.front = 'z' → member_to_offset m = .ok 2) ∧
    (∀ m : String, m.front = 's' → member_to_offset m = .ok 3) ∧
    (∀ m : String, m.front ≠ 'x' → m.front ≠ 'y' → m.front ≠ 'z' → m.front ≠ 's' →
      member_to_offset m = .error () ∧ member_to_offset_ndebug m = 0) ∧
    (∀ (sym : LSLSymbol) (m : String),
      lvalueStr ⟨sym, some m⟩ =
        globalSelf sym.subType ++ sym.name ++
          ("[" ++ toString (member_to_offset_ndebug m) ++ "]")) := by
  refine ⟨?_, ?_, ?_, ?_, ?_, ?_, ?_⟩
  · intro m1 m2 h
    constructor <;> simp only [member_to_offset, member_to_offset_ndebug, h]
  · intro m h
    simp [member_to_offset, h]
  · intro m h
    simp [member_to_offset, h]
  · intro m h
    simp [member_to_offset, h]
  · intro m h
    simp [member_to_offset, h]
  · intro m h1 h2 h3 h4
    constructor <;> simp [member_to_offset, member_to_offset_ndebug, h1, h2, h3, h4]
  · intro sym m
    rfl

/-- C10 witness: a member name starting with `x` maps to offset 0 whatever
follows, and a member name starting with any other character trips the
assertion and yields 0 with assertions disabled. -/
theorem member_offset_first_char_witness :
    member_to_offset "xyzzy" = .ok 0 ∧
    (member_to_offset "qq" = .error () ∧ member_to_offset_ndebug "qq" = 0) ∧
    member_to_offset "xyzzy" = member_to_offset "x_after" := by
  refine ⟨?_, ?_, ?_⟩
  · exact member_offset_first_char.2.1 "xyzzy" (by decide)
  · exact member_offset_first_char.2.2.2.2.2.1 "qq" (by decide) (by decide) (by decide)
      (by decide)
  · exact (member_offset_first_char.1 "xyzzy" "x_after" (by decide)).1
